import Mathlib

/-!
Shallow embedding of the core of this repository:

* `pyro/infer/trace_mean_field_elbo.py` — the `TraceMeanField_ELBO` estimator:
  traces, sites, the mean-field ordering check, the full-reparameterization
  check, the per-particle ELBO computation and the `loss` aggregation.
* `pyro/ops/jit.py` — the `CompiledFunction` wrapper: lazily compiled,
  argument-count-keyed cache with a single shared parameter-name list.

Scalars (tensor sums, log-densities) are modelled as rationals; tensors that
the code sums or masks elementwise are modelled as 1-D lists of rationals,
whose length plays the role of the (1-D) batch shape.  Python exceptions are
modelled with `Except`; the external analytic-KL collaborator, which may
signal "not implemented" for a distribution pair, is a parameter of type
`PyroDist → PyroDist → Option (List ℚ)`.
-/

/-- A value appearing in a `score_parts` triple: either a plain Python number
or a tensor (modelled as a 1-D batch of rationals). -/
inductive Term where
  | num (q : ℚ)
  | tensor (xs : List ℚ)
deriving Repr, DecidableEq

/-- Embeds `pyro.distributions.util.is_identically_zero`: true exactly for the
literal number zero (never for a tensor). -/
def isIdenticallyZero : Term → Bool
  | .num q => q == 0
  | .tensor _ => false

/-- The `.sum()` attribute call: defined for a tensor; a plain Python number
has no `.sum()` attribute, so the call fails. -/
def Term.sumAttr : Term → Option ℚ
  | .num _ => none
  | .tensor xs => some xs.sum

/-- The slice of a distribution object the estimator reads: the
reparameterization flag and the (1-D) batch shape. -/
structure PyroDist where
  has_rsample : Bool
  batch_shape : ℕ
deriving Repr, DecidableEq

/-- The `score_parts` triple of a site: log-density term, score-function term
and entropy term. -/
structure ScoreParts where
  log_prob : Term
  score_function_term : Term
  entropy_term : Term
deriving Repr, DecidableEq

/-- A trace site record, with the fields `trace_mean_field_elbo.py` reads:
`type`, `is_observed`, `fn`, `log_prob_sum`, `scale`, `mask`, `score_parts`
and the `infer` hint `is_auxiliary`. -/
structure PyroSite where
  type : String
  is_observed : Bool
  fn : PyroDist
  log_prob_sum : ℚ
  scale : ℚ
  mask : Option (List Bool)
  score_parts : ScoreParts
  infer_is_auxiliary : Bool
deriving Repr, DecidableEq

/-- A trace: an ordered mapping from site name to site record. -/
abbrev Trace := List (String × PyroSite)

/-- Key lookup in a trace (`trace.nodes[name]`). -/
def Trace.find? (t : Trace) (n : String) : Option PyroSite :=
  (List.find? (fun p => p.1 == n) t).map (·.2)

/-- Key membership in a trace (`name in trace.nodes`). -/
def Trace.memName (t : Trace) (n : String) : Bool :=
  t.any (fun p => p.1 == n)

/-- Modelled from the spec: `scale_and_mask` from `pyro.distributions.util`
(a collaborator of this repository absent from src/): applies the site's
broadcast modifiers to a tensor — multiplies elementwise by `scale` and
zeroes the entries masked out by `mask`. -/
def scale_and_mask (t : List ℚ) (scale : ℚ) (mask : Option (List Bool)) : List ℚ :=
  match mask with
  | none => t.map (· * scale)
  | some m => (t.zip m).map (fun p => if p.2 then p.1 * scale else 0)

/-- The Python exceptions the embedded code can raise. -/
inductive Err where
  | notImplemented
  | assertionError
  | keyError (name : String)
  | attributeError
deriving Repr, DecidableEq

/-- The analytic-KL collaborator (`torch.distributions.kl_divergence`):
`none` models the distinguished `NotImplementedError` signal. -/
abbrev KLFun := PyroDist → PyroDist → Option (List ℚ)

/-- The full-reparameterization predicate tested by
`_check_fully_reparametrized`: `has_rsample`, entropy term not identically
zero, score-function term identically zero. -/
def fullyRep (guide_site : PyroSite) : Bool :=
  guide_site.fn.has_rsample
    && !isIdenticallyZero guide_site.score_parts.entropy_term
    && isIdenticallyZero guide_site.score_parts.score_function_term

/-- Embeds `_check_fully_reparametrized`: raises `NotImplementedError` unless
the guide site is fully reparameterized. -/
def _check_fully_reparametrized (guide_site : PyroSite) : Except Err Unit :=
  if fullyRep guide_site then .ok () else .error .notImplemented

/-- Common sample-site names: the names of `sample`-type sites of `a` that
are also (as keys, of any type) in `b`, in `a`'s order.  This is
`model_sites` (resp. `guide_sites`) in `_check_mean_field_requirement`. -/
def commonSampleSites (a b : Trace) : List String :=
  (a.filter (fun p => p.2.type == "sample" && b.memName p.1)).map (·.1)

/-- All names of `a` that are also keys of `b`, in `a`'s order (used to state
what "site names common to both traces" means). -/
def commonNames (a b : Trace) : List String :=
  (a.filter (fun p => b.memName p.1)).map (·.1)

/-- Embeds `_check_mean_field_requirement`: asserts the two common-sample-site
name lists are equal as sets, then warns (returns `some` warning text) when
they differ as ordered lists. -/
def _check_mean_field_requirement (model_trace guide_trace : Trace) : Except Err (Option String) :=
  let model_sites := commonSampleSites model_trace guide_trace
  let guide_sites := commonSampleSites guide_trace model_trace
  if model_sites.all (guide_sites.contains ·) && guide_sites.all (model_sites.contains ·) then
    if model_sites ≠ guide_sites then
      .ok (some "Failed to verify mean field restriction on the guide.")
    else
      .ok none
  else
    .error .assertionError

/-- Embeds `TraceMeanField_ELBO._get_trace`: obtains the pair of traces and,
when validation is enabled, runs the mean-field ordering check; returns the
traces unchanged together with the warning the check may have emitted. -/
def _get_trace (validation : Bool) (model_trace guide_trace : Trace) :
    Except Err ((Trace × Trace) × Option String) :=
  if validation then
    (_check_mean_field_requirement model_trace guide_trace).map
      (fun w => ((model_trace, guide_trace), w))
  else
    .ok ((model_trace, guide_trace), none)

/-- One step of the first loop of `_differentiable_loss_particle`, for one
model-trace site: observed sample sites add their `log_prob_sum`; latent
sample sites look up the guide site, run the reparameterization check when
validation is enabled, then subtract the scaled/masked analytic KL (asserting
its shape) or, when the KL collaborator signals "not implemented", fall back
to `log_prob_sum(model) - entropy_term(guide).sum()`. -/
def modelSiteStep (kl : KLFun) (validation : Bool) (guide_trace : Trace)
    (acc : ℚ) (name : String) (model_site : PyroSite) : Except Err ℚ :=
  if model_site.type = "sample" then
    if model_site.is_observed then
      .ok (acc + model_site.log_prob_sum)
    else
      match guide_trace.find? name with
      | none => .error (.keyError name)
      | some guide_site =>
        (if validation then _check_fully_reparametrized guide_site else .ok ()) >>= fun _ =>
        match kl guide_site.fn model_site.fn with
        | some kl_raw =>
            let kl_qp := scale_and_mask kl_raw guide_site.scale guide_site.mask
            if kl_qp.length = guide_site.fn.batch_shape then
              .ok (acc - kl_qp.sum)
            else
              .error .assertionError
        | none =>
            match guide_site.score_parts.entropy_term.sumAttr with
            | some h => .ok (acc + model_site.log_prob_sum - h)
            | none => .error .attributeError
  else
    .ok acc

/-- One step of the second loop of `_differentiable_loss_particle`, for one
guide-trace site: a `sample`-type site absent from the model trace must carry
the `is_auxiliary` inference hint (assertion otherwise) and, when validation
is enabled, be fully reparameterized; its summed entropy term is then
subtracted from the running ELBO. -/
def guideSiteStep (validation : Bool) (model_trace : Trace)
    (acc : ℚ) (name : String) (guide_site : PyroSite) : Except Err ℚ :=
  if guide_site.type == "sample" && !model_trace.memName name then
    if guide_site.infer_is_auxiliary then
      (if validation then _check_fully_reparametrized guide_site else .ok ()) >>= fun _ =>
      match guide_site.score_parts.entropy_term.sumAttr with
      | some h => .ok (acc - h)
      | none => .error .attributeError
    else
      .error .assertionError
  else
    .ok acc

/-- The internal `elbo_particle` accumulation of
`TraceMeanField_ELBO._differentiable_loss_particle`: the first loop over the
model trace followed by the auxiliary-site loop over the guide trace, started
from zero. -/
def elboParticleAccum (kl : KLFun) (validation : Bool)
    (model_trace guide_trace : Trace) : Except Err ℚ := do
  let e ← model_trace.foldlM
    (fun acc p => modelSiteStep kl validation guide_trace acc p.1 p.2) 0
  guide_trace.foldlM (fun acc p => guideSiteStep validation model_trace acc p.1 p.2) e

/-- Embeds `TraceMeanField_ELBO._differentiable_loss_particle`: returns
`(-torch_item(elbo_particle), -elbo_particle)`; in this embedding both
components are the same rational. -/
def differentiable_loss_particle (kl : KLFun) (validation : Bool)
    (model_trace guide_trace : Trace) : Except Err (ℚ × ℚ) :=
  (elboParticleAccum kl validation model_trace guide_trace).map (fun e => (-e, -e))

/-- One iteration of the loop in `TraceMeanField_ELBO.loss`:
`elbo_particle, _ = self._differentiable_loss_particle(...)` followed by
`elbo += elbo_particle / self.num_particles`. -/
def lossStep (kl : KLFun) (validation : Bool) (num_particles : ℕ)
    (elbo : ℚ) (mg : Trace × Trace) : Except Err ℚ := do
  let lp ← differentiable_loss_particle kl validation mg.1 mg.2
  pure (elbo + lp.1 / (num_particles : ℚ))

/-- Embeds `TraceMeanField_ELBO.loss` over an already-enumerated list of
(model-trace, guide-trace) pairs (the particles produced by `_get_traces`,
which lives in the parent class outside src/): starts `elbo = 0`, adds the
first component of `_differentiable_loss_particle` divided by
`num_particles` for each pair, and returns `-elbo`. -/
def TraceMeanField_ELBO_loss (kl : KLFun) (validation : Bool)
    (pairs : List (Trace × Trace)) (num_particles : ℕ) : Except Err ℚ := do
  let elbo ← pairs.foldlM (lossStep kl validation num_particles) (0 : ℚ)
  pure (-elbo)

/-- Keyword arguments of a call, modelled as an association list of named
values. -/
abbrev Kwargs := List (String × Nat)

/-- The wrapped probabilistic function of `pyro.ops.jit.CompiledFunction`,
abstracted by its observable behaviour per call: which parameter names it
registers in the global store and what value it returns, both as functions
of the positional and keyword arguments it is run with. -/
structure WrappedFn where
  params : List Nat → Kwargs → List String
  ret : List Nat → Kwargs → Nat

/-- The compilation artifact cached per positional-argument count.  The
traced closure captures only the compiling call's keyword arguments; the
wrapper itself is reached through a weak reference at call time, so
everything else the closure reads is current wrapper state. -/
structure Artifact where
  captured_kwargs : Kwargs
deriving Repr, DecidableEq

/-- State of a `pyro.ops.jit.CompiledFunction` wrapper: the wrapped function,
the `len(args) -> artifact` cache, the warning flag, the single shared
`_param_names` list (`none` before any compilation), and an instrumentation
counter of how many times the compilation backend (`torch.jit.trace`) has
been invoked. -/
structure CompiledFunction where
  fn : WrappedFn
  compiled : List (Nat × Artifact)
  ignore_warnings : Bool
  param_names : Option (List String)
  backend_calls : Nat

/-- Embeds `CompiledFunction.__init__`: stores the function and the flag,
with an empty cache and no parameter names; no work is done eagerly. -/
def CompiledFunction.mkInit (fn : WrappedFn) (ignore_warnings : Bool) : CompiledFunction :=
  { fn := fn, compiled := [], ignore_warnings := ignore_warnings,
    param_names := none, backend_calls := 0 }

/-- Cache lookup by positional-argument count (`argc in self.compiled` /
`self.compiled[argc]`). -/
def lookupArtifact (cache : List (Nat × Artifact)) (argc : Nat) : Option Artifact :=
  (List.find? (fun p => p.1 == argc) cache).map (·.2)

/-- The errors a `CompiledFunction` call can raise: the
`NotImplementedError` for a parameter registered after first compilation. -/
inductive JitErr where
  | newParam (name : String)
deriving Repr, DecidableEq

/-- The post-invocation parameter-capture check: the capture hides the known
parameter names, so exactly the registered names outside `known` appear in
it; the first such name (if any) is reported. -/
def postCaptureCheck (registered known : List String) : Option String :=
  registered.find? (fun n => !known.contains n)

/-- Embeds `CompiledFunction.__call__` as a state transition.  On a call
whose positional-argument count has no cache entry: run the wrapped function
once under param-only capture to discover the parameter names, overwrite the
shared `_param_names` with them (`list(set(...))`, modelled as `dedup`),
hand the replay closure to the compilation backend and append the artifact
to the cache.  In both branches the cached artifact is then invoked: it
replays the wrapped function with the keyword arguments captured at compile
time, under a capture that hides the current `_param_names`; if that capture
records a name outside the current `_param_names`, the call raises instead
of returning. -/
def CompiledFunction.call (s : CompiledFunction) (args : List Nat) (kwargs : Kwargs) :
    Except JitErr (Nat × CompiledFunction) :=
  let argc := args.length
  match lookupArtifact s.compiled argc with
  | none =>
      let names := (s.fn.params args kwargs).dedup
      let art : Artifact := { captured_kwargs := kwargs }
      let s1 : CompiledFunction :=
        { s with param_names := some names,
                 compiled := s.compiled ++ [(argc, art)],
                 backend_calls := s.backend_calls + 1 }
      match postCaptureCheck (s1.fn.params args art.captured_kwargs) names with
      | some n => .error (.newParam n)
      | none => .ok (s1.fn.ret args art.captured_kwargs, s1)
  | some art =>
      let names := s.param_names.getD []
      match postCaptureCheck (s.fn.params args art.captured_kwargs) names with
      | some n => .error (.newParam n)
      | none => .ok (s.fn.ret args art.captured_kwargs, s)

/-- A KL collaborator that signals "not implemented" for every pair. -/
def klNone : KLFun := fun _ _ => none

/-- A KL collaborator returning the one-element tensor `[2]` for every pair. -/
def klTwo : KLFun := fun _ _ => some [2]

/-- A reparameterized distribution with batch shape 1. -/
def distR : PyroDist := { has_rsample := true, batch_shape := 1 }

/-- A non-reparameterized distribution with batch shape 1. -/
def distNoR : PyroDist := { has_rsample := false, batch_shape := 1 }

/-- Score parts of a fully reparameterized site with entropy tensor `[1]`. -/
def spGood : ScoreParts :=
  { log_prob := .tensor [1], score_function_term := .num 0, entropy_term := .tensor [1] }

/-- An observed model sample site with `log_prob_sum = 1`. -/
def obsSite : PyroSite :=
  { type := "sample", is_observed := true, fn := distR, log_prob_sum := 1,
    scale := 1, mask := none, score_parts := spGood, infer_is_auxiliary := false }

/-- A latent model sample site with `log_prob_sum = 3`. -/
def latSite : PyroSite := { obsSite with is_observed := false, log_prob_sum := 3 }

/-- A fully reparameterized latent guide site with entropy tensor `[2]`. -/
def guideLatSite : PyroSite :=
  { type := "sample", is_observed := false, fn := distR, log_prob_sum := 2,
    scale := 1, mask := none,
    score_parts := { log_prob := .tensor [2], score_function_term := .num 0,
                     entropy_term := .tensor [2] },
    infer_is_auxiliary := false }

/-- A guide site that is not fully reparameterized (`has_rsample = false`). -/
def badGuideSite : PyroSite := { guideLatSite with fn := distNoR }

/-- A fully reparameterized auxiliary guide-only site with entropy tensor `[1]`. -/
def auxGuideSite : PyroSite := { obsSite with is_observed := false, infer_is_auxiliary := true }

/-- A `param`-type site. -/
def paramSite : PyroSite := { obsSite with type := "param" }

/-- A model trace with one observed sample site. -/
def mObs : Trace := [("x", obsSite)]

/-- An auxiliary guide-only site that is not fully reparameterized. -/
def auxBadSite : PyroSite := { badGuideSite with infer_is_auxiliary := true }

/-- A model trace with two sample sites named a then b. -/
def mOrd : Trace := [("a", latSite), ("b", obsSite)]

/-- A guide trace exposing the same two sample-site names in the order b then a. -/
def gOrd : Trace := [("b", guideLatSite), ("a", guideLatSite)]

/-- A guide trace exposing name b as a sample site and name a as a param site. -/
def gMixed : Trace := [("b", guideLatSite), ("a", paramSite)]

/-- A wrapped function that registers parameter p when called with two
positional arguments and parameter q otherwise, returning the argument
count. -/
def fnPQ : WrappedFn :=
  { params := fun a _ => if a.length == 2 then ["p"] else ["q"],
    ret := fun a _ => a.length }

/-- A wrapped function registering no parameters. -/
def fnNoParams : WrappedFn := { params := fun _ _ => [], ret := fun a _ => a.length }

/-- The wrapper state after `mkInit fnNoParams false` has compiled argument
count 2. -/
def sNP1 : CompiledFunction :=
  { fn := fnNoParams, compiled := [(2, { captured_kwargs := [] })],
    ignore_warnings := false, param_names := some [], backend_calls := 1 }

/-- The wrapper state after `mkInit fnPQ false` has compiled argument
count 2 (discovering p). -/
def sPQ1 : CompiledFunction :=
  { fn := fnPQ, compiled := [(2, { captured_kwargs := [] })],
    ignore_warnings := false, param_names := some ["p"], backend_calls := 1 }

/-- The state after `sPQ1` has additionally compiled argument count 3
(discovering q, overwriting the shared name list). -/
def sPQ2 : CompiledFunction :=
  { fn := fnPQ, compiled := [(2, { captured_kwargs := [] }), (3, { captured_kwargs := [] })],
    ignore_warnings := false, param_names := some ["q"], backend_calls := 2 }

/-- The state after `sNP1` has additionally compiled argument count 3. -/
def sNP2 : CompiledFunction :=
  { fn := fnNoParams, compiled := [(2, { captured_kwargs := [] }), (3, { captured_kwargs := [] })],
    ignore_warnings := false, param_names := some [], backend_calls := 2 }

@[simp] lemma except_bind_ok {ε α β : Type} (a : α) (f : α → Except ε β) :
    (Except.ok a : Except ε α) >>= f = f a := rfl

@[simp] lemma except_bind_error {ε α β : Type} (e : ε) (f : α → Except ε β) :
    (Except.error e : Except ε α) >>= f = Except.error e := rfl

@[simp] lemma except_map_ok {ε α β : Type} (f : α → β) (a : α) :
    Except.map f (Except.ok a : Except ε α) = Except.ok (f a) := rfl

@[simp] lemma except_map_error {ε α β : Type} (f : α → β) (e : ε) :
    Except.map f (Except.error e : Except ε α) = Except.error e := rfl

@[simp] lemma except_functor_map {ε α β : Type} (f : α → β) (x : Except ε α) :
    f <$> x = Except.map f x := rfl

@[simp] lemma except_pure {ε α : Type} (a : α) :
    (pure a : Except ε α) = Except.ok a := rfl

lemma lossFold (kl : KLFun) (val : Bool) (n : ℕ) :
    ∀ (pairs : List (Trace × Trace)) (es : List ℚ),
      pairs.mapM (fun mg => elboParticleAccum kl val mg.1 mg.2) = Except.ok es →
      ∀ acc : ℚ, List.foldlM (lossStep kl val n) acc pairs
        = Except.ok (acc - (es.map (fun e => e / (n : ℚ))).sum) := by
  intro pairs
  induction pairs with
  | nil =>
      intro es h acc
      simp only [List.mapM_nil, pure, Except.pure, Except.ok.injEq] at h
      subst h
      simp [List.foldlM_nil, pure, Except.pure]
  | cons mg rest ih =>
      intro es h acc
      rw [List.mapM_cons] at h
      cases he : elboParticleAccum kl val mg.1 mg.2 with
      | error e => rw [he] at h; simp at h
      | ok e =>
          rw [he] at h
          simp only [except_bind_ok] at h
          cases hrest : List.mapM (fun mg => elboParticleAccum kl val mg.1 mg.2) rest with
          | error e2 => rw [hrest] at h; simp at h
          | ok es' =>
              rw [hrest] at h
              simp only [except_bind_ok, except_pure, Except.ok.injEq] at h
              subst h
              rw [List.foldlM_cons]
              have hstep : lossStep kl val n acc mg = Except.ok (acc + (-e) / (n : ℚ)) := by
                simp [lossStep, differentiable_loss_particle, he]
              rw [hstep]
              simp only [except_bind_ok]
              rw [ih es' hrest]
              congr 1
              simp only [List.map_cons, List.sum_cons, neg_div]
              ring

lemma obsFold (kl : KLFun) (val : Bool) (g : Trace) :
    ∀ (m : Trace), (∀ p ∈ m, p.2.type = "sample" ∧ p.2.is_observed = true) →
      ∀ acc : ℚ, List.foldlM (fun acc p => modelSiteStep kl val g acc p.1 p.2) acc m
        = Except.ok (acc + (m.map (fun p => p.2.log_prob_sum)).sum) := by
  intro m
  induction m with
  | nil => intro _ acc; simp
  | cons p rest ih =>
      intro h acc
      obtain ⟨ht, ho⟩ := h p (List.mem_cons_self ..)
      rw [List.foldlM_cons]
      have hstep : modelSiteStep kl val g acc p.1 p.2 = Except.ok (acc + p.2.log_prob_sum) := by
        simp [modelSiteStep, ht, ho]
      rw [hstep]
      simp only [except_bind_ok]
      rw [ih (fun q hq => h q (List.mem_cons_of_mem _ hq)) (acc + p.2.log_prob_sum)]
      congr 1
      simp only [List.map_cons, List.sum_cons]
      ring

lemma noSampleGuideFold (val : Bool) (m : Trace) :
    ∀ (g : Trace), (∀ p ∈ g, p.2.type ≠ "sample") →
      ∀ acc : ℚ, List.foldlM (fun acc p => guideSiteStep val m acc p.1 p.2) acc g
        = Except.ok acc := by
  intro g
  induction g with
  | nil => intro _ acc; simp
  | cons p rest ih =>
      intro h acc
      rw [List.foldlM_cons]
      have hstep : guideSiteStep val m acc p.1 p.2 = Except.ok acc := by
        have hne := h p (List.mem_cons_self ..)
        simp [guideSiteStep, hne]
      rw [hstep]
      simp only [except_bind_ok]
      exact ih (fun q hq => h q (List.mem_cons_of_mem _ hq)) acc

lemma lossEqAvg (kl : KLFun) (val : Bool) (pairs : List (Trace × Trace))
    (n : ℕ) (es : List ℚ)
    (h : pairs.mapM (fun mg => elboParticleAccum kl val mg.1 mg.2) = Except.ok es) :
    TraceMeanField_ELBO_loss kl val pairs n
      = Except.ok ((es.map (fun e => e / (n : ℚ))).sum) := by
  have hf := lossFold kl val n pairs es h 0
  simp only [TraceMeanField_ELBO_loss]
  rw [hf]
  simp

/-- C1 (amended): for every KL collaborator, validation flag and enumerated
list of trace pairs whose per-particle ELBO accumulations are `es`,
`TraceMeanField_ELBO.loss` returns the POSITIVE average
`(es.map (· / num_particles)).sum` — the negation of what the claim states:
the first component returned by `_differentiable_loss_particle` is already
the negated per-particle ELBO, and `loss` negates the accumulator again. -/
theorem C1_theorem (kl : KLFun) (val : Bool) (pairs : List (Trace × Trace))
    (n : ℕ) (es : List ℚ)
    (h : pairs.mapM (fun mg => elboParticleAccum kl val mg.1 mg.2) = Except.ok es) :
    TraceMeanField_ELBO_loss kl val pairs n
      = Except.ok ((es.map (fun e => e / (n : ℚ))).sum) :=
  lossEqAvg kl val pairs n es h

/-- C1 witness: the single-particle enumeration over one observed site with
`log_prob_sum = 1` instantiates the amended claim. -/
theorem C1_witness :
    TraceMeanField_ELBO_loss klNone false [(mObs, [])] 1
      = Except.ok ((([1] : List ℚ).map (fun e => e / ((1 : ℕ) : ℚ))).sum) :=
  C1_theorem klNone false [(mObs, [])] 1 [1] (by
    simp [List.mapM.loop, elboParticleAccum, mObs, modelSiteStep, obsSite])

/-- C1 counterexample: for one particle consisting of a model trace with a
single observed site of `log_prob_sum = 1` and an empty guide trace, the
per-particle ELBO is `1`, yet `loss` returns `1` and not the `-1` that the
claim (`loss = -elbo`, the negative of the average per-particle ELBO)
requires. -/
theorem C1_counterexample :
    elboParticleAccum klNone false mObs [] = Except.ok 1 ∧
    TraceMeanField_ELBO_loss klNone false [(mObs, [])] 1 = Except.ok 1 ∧
    TraceMeanField_ELBO_loss klNone false [(mObs, [])] 1 ≠ Except.ok (-1) := by
  have h1 : elboParticleAccum klNone false mObs [] = Except.ok 1 := by
    simp [elboParticleAccum, mObs, modelSiteStep, obsSite]
  have h2 : TraceMeanField_ELBO_loss klNone false [(mObs, [])] 1 = Except.ok 1 := by
    simp [TraceMeanField_ELBO_loss, lossStep, differentiable_loss_particle, elboParticleAccum,
      mObs, modelSiteStep, obsSite]
  refine ⟨h1, h2, ?_⟩
  intro hc
  rw [h2] at hc
  simp only [Except.ok.injEq] at hc
  norm_num at hc

/-- C2 (amended): an observed sample site contributes exactly its
`log_prob_sum` to the per-particle ELBO accumulation; consequently, for
model traces whose sample sites are all observed and guide traces with no
sample sites, `loss` equals the POSITIVE total observed log-density averaged
over particles (not its negative as the claim states, because of the double
negation in `loss`). -/
theorem C2_theorem :
    (∀ (kl : KLFun) (val : Bool) (g : Trace) (acc : ℚ) (name : String) (s : PyroSite),
      s.type = "sample" → s.is_observed = true →
      modelSiteStep kl val g acc name s = Except.ok (acc + s.log_prob_sum))
    ∧ (∀ (kl : KLFun) (val : Bool) (m g : Trace) (n : ℕ),
      (∀ p ∈ m, p.2.type = "sample" ∧ p.2.is_observed = true) →
      (∀ p ∈ g, p.2.type ≠ "sample") →
      elboParticleAccum kl val m g = Except.ok ((m.map (fun p => p.2.log_prob_sum)).sum)
      ∧ TraceMeanField_ELBO_loss kl val [(m, g)] n
          = Except.ok ((m.map (fun p => p.2.log_prob_sum)).sum / (n : ℚ))) := by
  constructor
  · intro kl val g acc name s ht ho
    simp [modelSiteStep, ht, ho]
  · intro kl val m g n hm hg
    have hacc : elboParticleAccum kl val m g
        = Except.ok ((m.map (fun p => p.2.log_prob_sum)).sum) := by
      simp only [elboParticleAccum]
      rw [obsFold kl val g m hm 0]
      simp only [except_bind_ok]
      rw [noSampleGuideFold val m g hg]
      norm_num
    refine ⟨hacc, ?_⟩
    have := lossEqAvg kl val [(m, g)] n [(m.map (fun p => p.2.log_prob_sum)).sum] (by
      rw [List.mapM_cons, hacc]
      simp [List.mapM.loop])
    rw [this]
    simp

/-- C2 witness: one observed site with `log_prob_sum = 1`, empty guide, one
particle instantiate the amended claim. -/
theorem C2_witness :
    modelSiteStep klNone false [] 0 "x" obsSite = Except.ok (0 + obsSite.log_prob_sum)
    ∧ (elboParticleAccum klNone false mObs [] = Except.ok ((mObs.map (fun p => p.2.log_prob_sum)).sum)
      ∧ TraceMeanField_ELBO_loss klNone false [(mObs, [])] 1
          = Except.ok ((mObs.map (fun p => p.2.log_prob_sum)).sum / ((1 : ℕ) : ℚ))) :=
  ⟨C2_theorem.1 klNone false [] 0 "x" obsSite rfl rfl,
   C2_theorem.2 klNone false mObs [] 1
     (by intro p hp; simp only [mObs, List.mem_singleton] at hp; subst hp; exact ⟨rfl, rfl⟩)
     (by intro p hp; simp at hp)⟩

/-- C2 counterexample: with a model trace consisting of a single observed
site with `log_prob_sum = 1` and a guide trace with no sample sites, the
total observed log-density is `1`, yet `loss` returns `1` — not the negated
total `-1` the claim requires. -/
theorem C2_counterexample :
    (mObs.map (fun p => p.2.log_prob_sum)).sum = 1 ∧
    TraceMeanField_ELBO_loss klNone false [(mObs, [])] 1 = Except.ok 1 ∧
    TraceMeanField_ELBO_loss klNone false [(mObs, [])] 1 ≠ Except.ok (-(1 : ℚ)) := by
  have h2 : TraceMeanField_ELBO_loss klNone false [(mObs, [])] 1 = Except.ok 1 := by
    simp [TraceMeanField_ELBO_loss, lossStep, differentiable_loss_particle, elboParticleAccum,
      mObs, modelSiteStep, obsSite]
  refine ⟨by simp [mObs, obsSite], h2, ?_⟩
  intro hc
  rw [h2] at hc
  simp only [Except.ok.injEq] at hc
  norm_num at hc

/-- C3: at a latent model sample site whose guide site passes the (enabled
or disabled) validation check, a "not implemented" signal from the analytic
KL collaborator is recovered locally — the step returns normally with
`elbo + log_prob_sum(model) - entropy_term(guide).sum()` and no error is
surfaced; when the KL succeeds, it is scaled and masked per the guide
site's metadata and its sum subtracted from the ELBO. -/
theorem C3_theorem (kl : KLFun) (val : Bool) (g : Trace) (acc : ℚ) (name : String)
    (s gs : PyroSite)
    (ht : s.type = "sample") (ho : s.is_observed = false)
    (hg : g.find? name = some gs)
    (hv : val = true → fullyRep gs = true) :
    (∀ hs : List ℚ, gs.score_parts.entropy_term = Term.tensor hs →
      kl gs.fn s.fn = none →
      modelSiteStep kl val g acc name s = Except.ok (acc + s.log_prob_sum - hs.sum))
    ∧ (∀ klT : List ℚ, kl gs.fn s.fn = some klT →
      (scale_and_mask klT gs.scale gs.mask).length = gs.fn.batch_shape →
      modelSiteStep kl val g acc name s
        = Except.ok (acc - (scale_and_mask klT gs.scale gs.mask).sum)) := by
  constructor
  · intro hs he hk
    cases val with
    | false => simp [modelSiteStep, ht, ho, hg, hk, he, Term.sumAttr]
    | true => simp [modelSiteStep, ht, ho, hg, hk, he, Term.sumAttr,
        _check_fully_reparametrized, hv rfl]
  · intro klT hk hshape
    cases val with
    | false => simp [modelSiteStep, ht, ho, hg, hk, hshape]
    | true => simp [modelSiteStep, ht, ho, hg, hk, hshape,
        _check_fully_reparametrized, hv rfl]

/-- C3 witness: at the latent site pair (latSite, guideLatSite), the
"not implemented" KL collaborator triggers the fallback and a successful KL
collaborator yields the scaled/masked subtraction. -/
theorem C3_witness :
    modelSiteStep klNone true [("y", guideLatSite)] 0 "y" latSite
      = Except.ok (0 + latSite.log_prob_sum - ([2] : List ℚ).sum)
    ∧ modelSiteStep klTwo true [("y", guideLatSite)] 0 "y" latSite
      = Except.ok (0 - (scale_and_mask [2] guideLatSite.scale guideLatSite.mask).sum) :=
  ⟨(C3_theorem klNone true [("y", guideLatSite)] 0 "y" latSite guideLatSite rfl rfl
      (by simp [Trace.find?]) (fun _ => rfl)).1 [2] rfl rfl,
   (C3_theorem klTwo true [("y", guideLatSite)] 0 "y" latSite guideLatSite rfl rfl
      (by simp [Trace.find?]) (fun _ => rfl)).2 [2] rfl rfl⟩

/-- C4: when validation is enabled and the guide site of a latent model
sample site is not fully reparameterized, the per-site step raises the
fatal `NotImplementedError` for every KL collaborator and every running
accumulator — before any ELBO arithmetic for the site — and the whole
per-particle computation propagates that error whenever the sites before it
processed normally. -/
theorem C4_theorem (g : Trace) (name : String) (s gs : PyroSite)
    (pre rest : Trace) (acc : ℚ)
    (ht : s.type = "sample") (ho : s.is_observed = false)
    (hg : g.find? name = some gs)
    (hrep : fullyRep gs = false) :
    (∀ (kl : KLFun) (a : ℚ),
      modelSiteStep kl true g a name s = Except.error Err.notImplemented)
    ∧ (∀ kl : KLFun,
      List.foldlM (fun a (p : String × PyroSite) => modelSiteStep kl true g a p.1 p.2) 0 pre
          = Except.ok acc →
      differentiable_loss_particle kl true (pre ++ (name, s) :: rest) g
        = Except.error Err.notImplemented) := by
  have hstep : ∀ (kl : KLFun) (a : ℚ),
      modelSiteStep kl true g a name s = Except.error Err.notImplemented := by
    intro kl a
    simp [modelSiteStep, ht, ho, hg, _check_fully_reparametrized, hrep]
  refine ⟨hstep, ?_⟩
  intro kl hpre
  simp only [differentiable_loss_particle, elboParticleAccum]
  rw [List.foldlM_append, hpre]
  simp only [except_bind_ok]
  rw [List.foldlM_cons]
  have : modelSiteStep kl true g acc name s = Except.error Err.notImplemented := hstep kl acc
  simp [this]

/-- C4 witness: the guide site `badGuideSite` (no `rsample`) for the latent
site `latSite` aborts both the step and the whole per-particle computation. -/
theorem C4_witness :
    modelSiteStep klTwo true [("y", badGuideSite)] 5 "y" latSite
      = Except.error Err.notImplemented
    ∧ differentiable_loss_particle klTwo true [("y", latSite)] [("y", badGuideSite)]
      = Except.error Err.notImplemented := by
  have h := C4_theorem [("y", badGuideSite)] "y" latSite badGuideSite [] [] 0
    rfl rfl (by simp [Trace.find?]) rfl
  exact ⟨h.1 klTwo 5, h.2 klTwo rfl⟩

/-- C5 (amended): a guide-only sample site not marked auxiliary raises the
assertion; one not fully reparameterized raises `NotImplementedError` when
validation is enabled; otherwise its summed entropy term is subtracted from
the per-particle ELBO, which increases the per-particle loss value returned
by `_differentiable_loss_particle` (the aggregate `loss`, which negates the
accumulated per-particle values again, decreases instead). -/
theorem C5_theorem :
    (∀ (val : Bool) (m : Trace) (acc : ℚ) (name : String) (gs : PyroSite),
      gs.type = "sample" → m.memName name = false → gs.infer_is_auxiliary = false →
      guideSiteStep val m acc name gs = Except.error Err.assertionError)
    ∧ (∀ (m : Trace) (acc : ℚ) (name : String) (gs : PyroSite),
      gs.type = "sample" → m.memName name = false → gs.infer_is_auxiliary = true →
      fullyRep gs = false →
      guideSiteStep true m acc name gs = Except.error Err.notImplemented)
    ∧ (∀ (val : Bool) (m : Trace) (acc : ℚ) (name : String) (gs : PyroSite) (hs : List ℚ),
      gs.type = "sample" → m.memName name = false → gs.infer_is_auxiliary = true →
      (val = true → fullyRep gs = true) →
      gs.score_parts.entropy_term = Term.tensor hs →
      guideSiteStep val m acc name gs = Except.ok (acc - hs.sum))
    ∧ (∀ (kl : KLFun) (val : Bool) (name : String) (gs : PyroSite) (hs : List ℚ),
      gs.type = "sample" → gs.infer_is_auxiliary = true →
      (val = true → fullyRep gs = true) →
      gs.score_parts.entropy_term = Term.tensor hs →
      differentiable_loss_particle kl val [] [(name, gs)]
        = Except.ok (hs.sum, hs.sum)) := by
  have hsub : ∀ (val : Bool) (m : Trace) (acc : ℚ) (name : String) (gs : PyroSite) (hs : List ℚ),
      gs.type = "sample" → m.memName name = false → gs.infer_is_auxiliary = true →
      (val = true → fullyRep gs = true) →
      gs.score_parts.entropy_term = Term.tensor hs →
      guideSiteStep val m acc name gs = Except.ok (acc - hs.sum) := by
    intro val m acc name gs hs ht hm ha hv he
    cases val with
    | false => simp [guideSiteStep, ht, hm, ha, he, Term.sumAttr]
    | true => simp [guideSiteStep, ht, hm, ha, he, Term.sumAttr,
        _check_fully_reparametrized, hv rfl]
  refine ⟨?_, ?_, hsub, ?_⟩
  · intro val m acc name gs ht hm ha
    simp [guideSiteStep, ht, hm, ha]
  · intro m acc name gs ht hm ha hrep
    simp [guideSiteStep, ht, hm, ha, _check_fully_reparametrized, hrep]
  · intro kl val name gs hs ht ha hv he
    have hg := hsub val [] 0 name gs hs ht rfl ha hv he
    simp only [differentiable_loss_particle, elboParticleAccum, List.foldlM_nil,
      except_pure, except_bind_ok, List.foldlM_cons]
    rw [hg]
    simp

/-- C5 witness: the three outcomes at concrete guide-only sites, plus the
per-particle value for a single auxiliary site of entropy sum 1. -/
theorem C5_witness :
    guideSiteStep false [] 0 "z" guideLatSite = Except.error Err.assertionError
    ∧ guideSiteStep true [] 0 "z" auxBadSite = Except.error Err.notImplemented
    ∧ guideSiteStep true [] 0 "z" auxGuideSite = Except.ok (0 - ([1] : List ℚ).sum)
    ∧ differentiable_loss_particle klNone true [] [("z", auxGuideSite)]
        = Except.ok (([1] : List ℚ).sum, ([1] : List ℚ).sum) :=
  ⟨C5_theorem.1 false [] 0 "z" guideLatSite rfl rfl rfl,
   C5_theorem.2.1 [] 0 "z" auxBadSite rfl rfl rfl rfl,
   C5_theorem.2.2.1 true [] 0 "z" auxGuideSite [1] rfl rfl rfl (fun _ => rfl) rfl,
   C5_theorem.2.2.2 klNone true "z" auxGuideSite [1] rfl rfl (fun _ => rfl) rfl⟩

/-- C5 counterexample: adding a single auxiliary guide-only site of entropy
sum 1 moves `loss` from 0 to -1 — the auxiliary site decreases the loss
returned by `TraceMeanField_ELBO.loss`, contradicting the claim's
"increasing the loss"; moreover, with validation disabled a non-fully-
reparameterized auxiliary site raises no fatal error at all (its entropy is
subtracted normally), contradicting the claim's unconditional "a fatal
error is raised if the site is not fully reparameterized". -/
theorem C5_counterexample :
    TraceMeanField_ELBO_loss klNone false [([], [("z", auxGuideSite)])] 1 = Except.ok (-1)
    ∧ TraceMeanField_ELBO_loss klNone false [([], [])] 1 = Except.ok 0
    ∧ ((-1 : ℚ) < 0)
    ∧ fullyRep auxBadSite = false
    ∧ guideSiteStep false [] 0 "z" auxBadSite = Except.ok (0 - 2) := by
  refine ⟨?_, ?_, by norm_num, rfl, ?_⟩
  · simp [TraceMeanField_ELBO_loss, lossStep, differentiable_loss_particle, elboParticleAccum,
      modelSiteStep, guideSiteStep, auxGuideSite, obsSite, Trace.memName, Term.sumAttr, spGood]
  · simp [TraceMeanField_ELBO_loss, lossStep, differentiable_loss_particle, elboParticleAccum]
  · simp [guideSiteStep, auxBadSite, badGuideSite, guideLatSite, Trace.memName, Term.sumAttr]

/-- C6 (amended): when the set of common sample-site names agrees between
the two traces (the internal set-equality assertion of
`_check_mean_field_requirement` holds), an ordering mismatch produces only a
warning — `_get_trace` returns the traces unchanged with the warning
attached, and no fatal error is raised; without a mismatch no warning is
produced.  (When the set equality fails, the check's own assertion raises —
see the counterexample.) -/
theorem C6_theorem (m g : Trace)
    (hsub1 : (commonSampleSites m g).all ((commonSampleSites g m).contains ·) = true)
    (hsub2 : (commonSampleSites g m).all ((commonSampleSites m g).contains ·) = true) :
    (commonSampleSites m g ≠ commonSampleSites g m →
      _get_trace true m g
        = Except.ok ((m, g), some "Failed to verify mean field restriction on the guide."))
    ∧ (commonSampleSites m g = commonSampleSites g m →
      _get_trace true m g = Except.ok ((m, g), none)) := by
  have hcond : ((commonSampleSites m g).all (fun x => (commonSampleSites g m).contains x)
      && (commonSampleSites g m).all (fun x => (commonSampleSites m g).contains x)) = true := by
    rw [hsub1, hsub2]
    rfl
  refine ⟨fun hord => ?_, fun hord => ?_⟩ <;>
    simp only [_get_trace, _check_mean_field_requirement]
  · rw [if_pos hcond, if_pos hord]
    rfl
  · rw [if_pos hcond,
      if_neg (show ¬(commonSampleSites m g ≠ commonSampleSites g m) from fun hne => hne hord)]
    rfl

/-- C6 witness: traces exposing the common sample-site names a, b in
opposite orders pass the check with a warning and no error. -/
theorem C6_witness :
    _get_trace true mOrd gOrd
      = Except.ok ((mOrd, gOrd),
          some "Failed to verify mean field restriction on the guide.") :=
  (C6_theorem mOrd gOrd (by simp [commonSampleSites, Trace.memName, mOrd, gOrd,
      latSite, obsSite, guideLatSite])
    (by simp [commonSampleSites, Trace.memName, mOrd, gOrd, latSite, obsSite, guideLatSite])).1
    (by simp [commonSampleSites, Trace.memName, mOrd, gOrd, latSite, obsSite, guideLatSite])

/-- C6 counterexample: the names a, b are common to both traces and appear
in different relative orders, yet the mean-field ordering check raises the
fatal assertion error (name a is a sample site in the model but a param
site in the guide, so the check's internal set-equality assertion fails) —
contradicting "emits a warning but never raises a fatal error". -/
theorem C6_counterexample :
    commonNames mOrd gMixed = ["a", "b"]
    ∧ commonNames gMixed mOrd = ["b", "a"]
    ∧ (["a", "b"] : List String) ≠ ["b", "a"]
    ∧ _get_trace true mOrd gMixed = Except.error Err.assertionError := by
  refine ⟨?_, ?_, by simp, ?_⟩
  · simp [commonNames, Trace.memName, mOrd, gMixed]
  · simp [commonNames, Trace.memName, mOrd, gMixed]
  · simp [_get_trace, _check_mean_field_requirement, commonSampleSites, Trace.memName,
      mOrd, gMixed, latSite, obsSite, guideLatSite, paramSite]

lemma lookupArtifact_append_some (cache l2 : List (Nat × Artifact)) (c : Nat) (a : Artifact)
    (h : lookupArtifact cache c = some a) :
    lookupArtifact (cache ++ l2) c = some a := by
  induction cache with
  | nil => simp [lookupArtifact] at h
  | cons p rest ih =>
      rw [List.cons_append]
      simp only [lookupArtifact, List.find?_cons] at h ⊢
      cases hb : (p.1 == c) with
      | true => rw [hb] at h; exact h
      | false => rw [hb] at h; exact ih h

lemma lookupArtifact_append_self (cache : List (Nat × Artifact)) (c : Nat) (a : Artifact)
    (h : lookupArtifact cache c = none) :
    lookupArtifact (cache ++ [(c, a)]) c = some a := by
  induction cache with
  | nil => simp [lookupArtifact, List.find?]
  | cons p rest ih =>
      rw [List.cons_append]
      simp only [lookupArtifact, List.find?_cons] at h ⊢
      cases hb : (p.1 == c) with
      | true => rw [hb] at h; simp at h
      | false => rw [hb] at h; exact ih h

lemma postCaptureCheck_dedup (l : List String) : postCaptureCheck l l.dedup = none := by
  apply List.find?_eq_none.mpr
  intro x hx
  have hc : l.dedup.contains x = true := List.elem_eq_true_of_mem (List.mem_dedup.mpr hx)
  show ¬(!l.dedup.contains x) = true
  rw [hc]
  simp

lemma call_compile (s : CompiledFunction) (args : List Nat) (k : Kwargs)
    (h : lookupArtifact s.compiled args.length = none) :
    s.call args k = Except.ok (s.fn.ret args k,
      { s with param_names := some ((s.fn.params args k).dedup),
               compiled := s.compiled ++ [(args.length, { captured_kwargs := k })],
               backend_calls := s.backend_calls + 1 }) := by
  simp only [CompiledFunction.call, h]
  rw [postCaptureCheck_dedup]

lemma call_compiled (s : CompiledFunction) (args : List Nat) (k : Kwargs) (art : Artifact)
    (h : lookupArtifact s.compiled args.length = some art) :
    s.call args k
      = match postCaptureCheck (s.fn.params args art.captured_kwargs) (s.param_names.getD []) with
        | some n => Except.error (JitErr.newParam n)
        | none => Except.ok (s.fn.ret args art.captured_kwargs, s) := by
  simp only [CompiledFunction.call, h]

lemma call_newParam (s : CompiledFunction) (args : List Nat) (k : Kwargs) (art : Artifact)
    (h : lookupArtifact s.compiled args.length = some art)
    (hnew : ∃ n ∈ s.fn.params args art.captured_kwargs,
      (s.param_names.getD []).contains n = false) :
    ∃ m, s.call args k = Except.error (JitErr.newParam m) := by
  obtain ⟨n, hn, hc⟩ := hnew
  have hsome : (postCaptureCheck (s.fn.params args art.captured_kwargs)
      (s.param_names.getD [])).isSome := by
    apply List.find?_isSome.mpr
    exact ⟨n, hn, by show (!(s.param_names.getD []).contains n) = true; rw [hc]; rfl⟩
  obtain ⟨m, hm⟩ := Option.isSome_iff_exists.mp hsome
  refine ⟨m, ?_⟩
  rw [call_compiled s args k art h, hm]

lemma call_compile_state (s : CompiledFunction) (args : List Nat) (k : Kwargs)
    (r : Nat) (s' : CompiledFunction)
    (h : lookupArtifact s.compiled args.length = none)
    (hcall : s.call args k = Except.ok (r, s')) :
    s' = { s with param_names := some ((s.fn.params args k).dedup),
                  compiled := s.compiled ++ [(args.length, { captured_kwargs := k })],
                  backend_calls := s.backend_calls + 1 }
    ∧ r = s.fn.ret args k := by
  rw [call_compile s args k h] at hcall
  simp only [Except.ok.injEq, Prod.mk.injEq] at hcall
  exact ⟨hcall.2.symm, hcall.1.symm⟩

lemma call_compiled_state (s : CompiledFunction) (args : List Nat) (k : Kwargs)
    (art : Artifact) (r : Nat) (s' : CompiledFunction)
    (h : lookupArtifact s.compiled args.length = some art)
    (hcall : s.call args k = Except.ok (r, s')) :
    s' = s ∧ r = s.fn.ret args art.captured_kwargs := by
  rw [call_compiled s args k art h] at hcall
  cases hpc : postCaptureCheck (s.fn.params args art.captured_kwargs) (s.param_names.getD []) with
  | some n => rw [hpc] at hcall; cases hcall
  | none =>
      rw [hpc] at hcall
      simp only [Except.ok.injEq, Prod.mk.injEq] at hcall
      exact ⟨hcall.2.symm, hcall.1.symm⟩

/-- C7: a fresh wrapper has an empty cache and has never invoked the
backend; two completed calls with the same positional-argument count invoke
the compilation backend exactly once and the second call leaves the state
untouched; completed calls with two distinct counts invoke the backend
twice and leave two separate cache entries; and a completed call never
removes an existing cache entry. -/
theorem C7_theorem (fn : WrappedFn) (iw : Bool) :
    ((CompiledFunction.mkInit fn iw).compiled = []
      ∧ (CompiledFunction.mkInit fn iw).backend_calls = 0)
    ∧ (∀ (args args2 : List Nat) (k1 k2 : Kwargs) (r1 r2 : Nat) (s1 s2 : CompiledFunction),
        (CompiledFunction.mkInit fn iw).call args k1 = Except.ok (r1, s1) →
        s1.call args2 k2 = Except.ok (r2, s2) →
        args2.length = args.length →
        s1.backend_calls = 1 ∧ s2 = s1)
    ∧ (∀ (args args2 : List Nat) (k1 k2 : Kwargs) (r1 r2 : Nat) (s1 s2 : CompiledFunction),
        (CompiledFunction.mkInit fn iw).call args k1 = Except.ok (r1, s1) →
        s1.call args2 k2 = Except.ok (r2, s2) →
        args2.length ≠ args.length →
        s2.backend_calls = 2
        ∧ lookupArtifact s2.compiled args.length = some { captured_kwargs := k1 }
        ∧ lookupArtifact s2.compiled args2.length = some { captured_kwargs := k2 })
    ∧ (∀ (s : CompiledFunction) (args : List Nat) (k : Kwargs) (r : Nat)
        (s' : CompiledFunction),
        s.call args k = Except.ok (r, s') →
        ∀ (c : Nat) (a : Artifact), lookupArtifact s.compiled c = some a →
          lookupArtifact s'.compiled c = some a) := by
  refine ⟨⟨rfl, rfl⟩, ?_, ?_, ?_⟩
  · intro args args2 k1 k2 r1 r2 s1 s2 h1 h2 hlen
    obtain ⟨hs1, _⟩ := call_compile_state (CompiledFunction.mkInit fn iw) args k1 r1 s1 rfl h1
    subst hs1
    refine ⟨rfl, ?_⟩
    have hla : lookupArtifact
        ((CompiledFunction.mkInit fn iw).compiled ++ [(args.length, { captured_kwargs := k1 })])
        args2.length = some { captured_kwargs := k1 } := by
      rw [hlen]
      exact lookupArtifact_append_self _ _ _ rfl
    exact (call_compiled_state _ args2 k2 { captured_kwargs := k1 } r2 s2 hla h2).1
  · intro args args2 k1 k2 r1 r2 s1 s2 h1 h2 hlen
    obtain ⟨hs1, _⟩ := call_compile_state (CompiledFunction.mkInit fn iw) args k1 r1 s1 rfl h1
    subst hs1
    have hb : (args.length == args2.length) = false := beq_eq_false_iff_ne.mpr (Ne.symm hlen)
    have hlaNone : lookupArtifact
        ((CompiledFunction.mkInit fn iw).compiled ++ [(args.length, { captured_kwargs := k1 })])
        args2.length = none := by
      simp [lookupArtifact, CompiledFunction.mkInit, List.find?_cons, hb]
    obtain ⟨hs2, _⟩ := call_compile_state _ args2 k2 r2 s2 hlaNone h2
    subst hs2
    refine ⟨rfl, ?_, ?_⟩
    · exact lookupArtifact_append_some _ _ _ _ (lookupArtifact_append_self _ _ _ rfl)
    · exact lookupArtifact_append_self _ _ _ hlaNone
  · intro s args k r s' hcall c a hc
    cases hl : lookupArtifact s.compiled args.length with
    | none =>
        obtain ⟨hs', _⟩ := call_compile_state s args k r s' hl hcall
        subst hs'
        exact lookupArtifact_append_some _ _ _ _ hc
    | some art =>
        obtain ⟨hs', _⟩ := call_compiled_state s args k art r s' hl hcall
        subst hs'
        exact hc

/-- C7 witness: the no-parameter wrapped function called twice with 2
arguments keeps one backend invocation; called with 2 then 3 arguments it
reaches two invocations with both cache entries present, and the earlier
entry survives the second compilation. -/
theorem C7_witness :
    (sNP1.backend_calls = 1 ∧ sNP1 = sNP1)
    ∧ (sNP2.backend_calls = 2
        ∧ lookupArtifact sNP2.compiled 2 = some { captured_kwargs := [] }
        ∧ lookupArtifact sNP2.compiled 3 = some { captured_kwargs := [] })
    ∧ lookupArtifact sNP2.compiled 2 = some { captured_kwargs := [] } :=
  ⟨(C7_theorem fnNoParams false).2.1 [5, 6] [7, 8] [] [] 2 2 sNP1 sNP1 rfl rfl rfl,
   (C7_theorem fnNoParams false).2.2.1 [5, 6] [1, 2, 3] [] [] 2 3 sNP1 sNP2 rfl rfl
     (by decide),
   (C7_theorem fnNoParams false).2.2.2 sNP1 [1, 2, 3] [] 3 sNP2 rfl 2
     { captured_kwargs := [] } rfl⟩

/-- C8: a call with an already-compiled positional-argument count whose
post-invocation capture would record a parameter name outside the currently
known list raises the fatal `newParam` error and never returns a result. -/
theorem C8_theorem (s : CompiledFunction) (args : List Nat) (k : Kwargs) (art : Artifact)
    (h : lookupArtifact s.compiled args.length = some art)
    (hnew : ∃ n ∈ s.fn.params args art.captured_kwargs,
      (s.param_names.getD []).contains n = false) :
    (∃ m, s.call args k = Except.error (JitErr.newParam m))
    ∧ ∀ (r : Nat) (s' : CompiledFunction), s.call args k ≠ Except.ok (r, s') := by
  obtain ⟨m, hm⟩ := call_newParam s args k art h hnew
  refine ⟨⟨m, hm⟩, ?_⟩
  intro r s' hc
  rw [hm] at hc
  cases hc

/-- C8 witness: in state `sPQ2` (known names q), a 2-argument call replays
the wrapped function which registers p, so the call fails fatally. -/
theorem C8_witness :
    (∃ m, sPQ2.call [0, 0] [] = Except.error (JitErr.newParam m))
    ∧ ∀ (r : Nat) (s' : CompiledFunction), sPQ2.call [0, 0] [] ≠ Except.ok (r, s') :=
  C8_theorem sPQ2 [0, 0] [] { captured_kwargs := [] } rfl
    ⟨"p", by simp [sPQ2, fnPQ], rfl⟩

/-- C9: compiling a positional-argument count overwrites the single shared
`_param_names` list with the names just discovered, whatever it held
before; consequently, after compiling a second distinct count, a call with
the first count is checked against the names discovered for the second
count — a replayed parameter that was in the first discovery but not the
second now raises `newParam`, so the per-argument-count states are not
independent. -/
theorem C9_theorem :
    (∀ (s : CompiledFunction) (args : List Nat) (k : Kwargs) (r : Nat)
        (s' : CompiledFunction),
      lookupArtifact s.compiled args.length = none →
      s.call args k = Except.ok (r, s') →
      s'.param_names = some ((s.fn.params args k).dedup))
    ∧ (∀ (fn : WrappedFn) (iw : Bool) (args1 args2 args3 : List Nat)
        (k1 k2 k3 : Kwargs) (r1 r2 : Nat) (s1 s2 : CompiledFunction) (n : String),
      (CompiledFunction.mkInit fn iw).call args1 k1 = Except.ok (r1, s1) →
      s1.call args2 k2 = Except.ok (r2, s2) →
      args2.length ≠ args1.length →
      args3.length = args1.length →
      n ∈ fn.params args3 k1 →
      ((fn.params args2 k2).dedup).contains n = false →
      s2.param_names = some ((fn.params args2 k2).dedup)
      ∧ ∃ m, s2.call args3 k3 = Except.error (JitErr.newParam m)) := by
  constructor
  · intro s args k r s' hl hcall
    obtain ⟨hs', _⟩ := call_compile_state s args k r s' hl hcall
    rw [hs']
  · intro fn iw args1 args2 args3 k1 k2 k3 r1 r2 s1 s2 n h1 h2 hne hlen hmem hcont
    obtain ⟨hs1, _⟩ := call_compile_state (CompiledFunction.mkInit fn iw) args1 k1 r1 s1 rfl h1
    subst hs1
    have hb : (args1.length == args2.length) = false := beq_eq_false_iff_ne.mpr (Ne.symm hne)
    have hlaNone : lookupArtifact
        ((CompiledFunction.mkInit fn iw).compiled ++ [(args1.length, { captured_kwargs := k1 })])
        args2.length = none := by
      simp [lookupArtifact, CompiledFunction.mkInit, List.find?_cons, hb]
    obtain ⟨hs2, _⟩ := call_compile_state _ args2 k2 r2 s2 hlaNone h2
    subst hs2
    refine ⟨rfl, ?_⟩
    have hla : lookupArtifact
        (((CompiledFunction.mkInit fn iw).compiled ++ [(args1.length, { captured_kwargs := k1 })])
          ++ [(args2.length, { captured_kwargs := k2 })])
        args3.length = some { captured_kwargs := k1 } := by
      rw [hlen]
      exact lookupArtifact_append_some _ _ _ _ (lookupArtifact_append_self _ _ _ rfl)
    exact call_newParam _ args3 k3 { captured_kwargs := k1 } hla ⟨n, hmem, hcont⟩

/-- C9 witness: `fnPQ` discovers p for 2-argument calls and q for others;
after compiling argument counts 2 then 3, the shared list holds only q, and
a fresh 2-argument call fails on the replayed parameter p that the first
compilation had discovered. -/
theorem C9_witness :
    sPQ2.param_names = some ((fnPQ.params [0, 0, 0] []).dedup)
    ∧ ∃ m, sPQ2.call [9, 9] [] = Except.error (JitErr.newParam m) :=
  (C9_theorem.2 fnPQ false [0, 0] [0, 0, 0] [9, 9] [] [] [] 2 3 sPQ1 sPQ2 "p"
    rfl rfl (by decide) rfl (by simp [fnPQ]) rfl)

/-- C10: a call whose positional-argument count is already compiled ignores
its keyword arguments entirely — the call's outcome is identical for any
two keyword-argument lists, and on success the replayed wrapped function is
run with the keyword arguments captured by the artifact at compile time,
which a compiling call stores from its own keyword arguments. -/
theorem C10_theorem (s : CompiledFunction) (args : List Nat) (k k' : Kwargs) (art : Artifact)
    (h : lookupArtifact s.compiled args.length = some art) :
    s.call args k = s.call args k'
    ∧ (∀ (r : Nat) (s' : CompiledFunction), s.call args k = Except.ok (r, s') →
        r = s.fn.ret args art.captured_kwargs ∧ s' = s)
    ∧ (∀ (s0 : CompiledFunction) (args0 : List Nat) (k0 : Kwargs) (r0 : Nat)
        (s0' : CompiledFunction),
      lookupArtifact s0.compiled args0.length = none →
      s0.call args0 k0 = Except.ok (r0, s0') →
      lookupArtifact s0'.compiled args0.length = some { captured_kwargs := k0 }) := by
  refine ⟨?_, ?_, ?_⟩
  · rw [call_compiled s args k art h, call_compiled s args k' art h]
  · intro r s' hcall
    obtain ⟨hs', hr⟩ := call_compiled_state s args k art r s' h hcall
    exact ⟨hr, hs'⟩
  · intro s0 args0 k0 r0 s0' hl hcall
    obtain ⟨hs0', _⟩ := call_compile_state s0 args0 k0 r0 s0' hl hcall
    subst hs0'
    exact lookupArtifact_append_self _ _ _ hl

/-- C10 witness: in state `sNP1`, 2-argument calls with different keyword
arguments coincide, return the value computed from the captured (empty)
keyword arguments, and the artifact stored by the compiling call holds that
call's keyword arguments. -/
theorem C10_witness :
    sNP1.call [1, 2] [("a", 1)] = sNP1.call [1, 2] [("b", 2)]
    ∧ ((2 : Nat) = sNP1.fn.ret [1, 2] (Artifact.captured_kwargs { captured_kwargs := [] })
        ∧ sNP1 = sNP1)
    ∧ lookupArtifact sNP1.compiled 2 = some { captured_kwargs := [] } :=
  ⟨(C10_theorem sNP1 [1, 2] [("a", 1)] [("b", 2)] { captured_kwargs := [] } rfl).1,
   (C10_theorem sNP1 [1, 2] [("a", 1)] [("b", 2)] { captured_kwargs := [] } rfl).2.1 2 sNP1 rfl,
   (C10_theorem sNP1 [1, 2] [("a", 1)] [("b", 2)] { captured_kwargs := [] } rfl).2.2
     (CompiledFunction.mkInit fnNoParams false) [5, 6] [] 2 sNP1 rfl rfl⟩
